import Mathlib

/-!
Shallow embedding of the client-side state-synchronization core of the
clinical-trials assistant frontend:

* `checkApiHealth` — the cached health operation
  (src/api/services/healthService.js).
* `checkConnection` / the concurrent step model — the Connectivity Health
  Monitor (src/context/ApiContext.jsx).
* `sendMessageRun` / `loadConversationRun` — the Conversational Session
  Manager (src/context/ChatContext.jsx).
* `searchRun` / `loadMoreRun` — the Paginated Search Manager
  (src/context/SearchContext.jsx).

JavaScript values that may be `null`/`undefined` are modelled as `Option`;
JavaScript truthiness on strings treats the empty string as falsy and on
numbers treats `0` as falsy.  Promise rejection is modelled with `Except`.
Each async operation is modelled as a pure function from the pre-state and
the (externally supplied) network outcome to the post-state plus its
observable outputs; for the reentrancy claim the monitor is additionally
modelled as a small-step transition system.
-/

namespace Gary

/-- JavaScript truthiness of an optional string: `null`/`undefined` and the
empty string are falsy, every other string is truthy. -/
def jsTruthy : Option String → Bool
  | none => false
  | some s => s != ""

/-- JavaScript truthiness of an optional number: `null`/`undefined` and `0`
are falsy. -/
def jsTruthyNat : Option Nat → Bool
  | none => false
  | some n => n != 0

/-- Whitespace test used by JavaScript trim (restricted to the common
whitespace characters). -/
def isWS (c : Char) : Bool :=
  c == ' ' || c == '\t' || c == '\n' || c == '\r'

/-- JavaScript string trim: drop whitespace from both ends. -/
def jsTrim (s : String) : String :=
  ⟨((s.data.dropWhile isWS).reverse.dropWhile isWS).reverse⟩

/-! ## Health cache (src/api/services/healthService.js) -/

/-- The module-level health cache of healthService.js:
`{ status, timestamp, expiresIn }`. -/
structure HealthCache where
  status : Option String
  timestamp : Option Nat
  expiresIn : Nat
deriving DecidableEq, Repr

/-- The validity test of `checkApiHealth`:
`healthCache.status && healthCache.timestamp && (now - healthCache.timestamp) < healthCache.expiresIn`.
Timestamps are compared over `Int` to mirror JavaScript arithmetic. -/
def cacheValid (c : HealthCache) (now : Nat) : Bool :=
  jsTruthy c.status && jsTruthyNat c.timestamp &&
    decide ((now : Int) - (c.timestamp.getD 0 : Nat) < (c.expiresIn : Int))

/-- `checkApiHealth` from healthService.js.  Inputs: the current cache, the
current time, and the outcome the network request would have (`net`).
Output: the call result (`Except` models throw), the updated cache, and a
flag recording whether a real network request was performed. -/
def checkApiHealth (c : HealthCache) (now : Nat) (net : Except String String) :
    Except String String × HealthCache × Bool :=
  if cacheValid c now then
    (Except.ok (c.status.getD ""), c, false)
  else
    match net with
    | Except.ok s => (Except.ok s, ⟨some s, some now, 30000⟩, true)
    | Except.error e => (Except.error e, ⟨some "error", some now, 15000⟩, true)

/-! ## Connectivity Health Monitor (src/context/ApiContext.jsx) -/

/-- The monitor state held by `ApiProvider`: the four React state fields plus
the `healthCheckInProgress` ref. -/
structure ApiState where
  isConnected : Bool
  lastChecked : Option Nat
  isChecking : Bool
  error : Option String
  inProgress : Bool
deriving DecidableEq, Repr

/-- The health outcome seen by `checkConnection`: a rejection carrying an
error message, or a resolved health payload (`none` models a falsy payload,
`some s` a payload whose `status` field is `s`). -/
abbrev HealthOutcome := Except String (Option String)

/-- The truthiness-and-status test `health && health.status === 'ok'`. -/
def isHealthyOf : Option String → Bool
  | some s => s == "ok"
  | none => false

/-- `checkConnection(force)` from ApiContext.jsx, run to completion against a
given health outcome at time `now`.  Returns the post-state and the returned
value (`none` models the undefined return of the skip branch). -/
def checkConnection (st : ApiState) (force : Bool) (health : HealthOutcome)
    (now : Nat) : ApiState × Option Bool :=
  if st.inProgress && !force then
    (st, none)
  else
    let st1 : ApiState :=
      { st with inProgress := true, isChecking := true, error := none }
    match health with
    | Except.ok h =>
        ({ st1 with
             isConnected := isHealthyOf h
             lastChecked := some now
             inProgress := false
             isChecking := false }, some (isHealthyOf h))
    | Except.error e =>
        ({ st1 with
             isConnected := false
             error := some (if e == "" then "Unable to connect to API" else e)
             inProgress := false
             isChecking := false }, some false)

/-- Small-step model of the monitor for the reentrancy claim: the code state
plus a ghost counter `pending` of health requests actually in flight. -/
structure ApiConcState where
  isConnected : Bool
  lastChecked : Option Nat
  isChecking : Bool
  error : Option String
  inProgress : Bool
  pending : Nat
deriving DecidableEq, Repr

/-- The provider's initial state: `isConnected=true`, nothing checked yet,
no check in flight. -/
def apiConcInit : ApiConcState :=
  ⟨true, none, false, none, false, 0⟩

/-- The synchronous prefix of `checkConnection(false)`: if a check is in
progress the call returns at once with no state change; otherwise it sets the
in-progress flag and `isChecking`, clears `error`, and issues the health
request (ghost counter incremented). -/
def apiCall (s : ApiConcState) : ApiConcState :=
  if s.inProgress then s
  else
    { s with inProgress := true, isChecking := true, error := none,
             pending := s.pending + 1 }

/-- The resumption of an in-flight `checkConnection` when its health request
settles: the try/catch updates followed by the finally block (flag and
`isChecking` cleared; ghost counter decremented). -/
def apiResolve (s : ApiConcState) (health : HealthOutcome) (now : Nat) :
    ApiConcState :=
  match health with
  | Except.ok h =>
      { s with isConnected := isHealthyOf h, lastChecked := some now,
               inProgress := false, isChecking := false,
               pending := s.pending - 1 }
  | Except.error e =>
      { s with isConnected := false,
               error := some (if e == "" then "Unable to connect to API" else e),
               inProgress := false, isChecking := false,
               pending := s.pending - 1 }

/-- States reachable from the initial monitor state by interleaved
`checkConnection(false)` calls and settlements of in-flight requests (a
settlement presupposes a request in flight). -/
inductive ApiReach : ApiConcState → Prop where
  | init : ApiReach apiConcInit
  | call : ∀ {s : ApiConcState}, ApiReach s → ApiReach (apiCall s)
  | resolve : ∀ {s : ApiConcState} (health : HealthOutcome) (now : Nat),
      ApiReach s → 1 ≤ s.pending → ApiReach (apiResolve s health now)

/-! ## Conversational Session Manager (src/context/ChatContext.jsx) -/

/-- A chat message: role, content, optional evidence payload, and the
`isError` flag carried by synthetic error messages. -/
structure ChatMsg where
  role : String
  content : String
  evidence : Option String := none
  isError : Bool := false
deriving DecidableEq, Repr

/-- The session state held by `ChatProvider`. -/
structure ChatState where
  messages : List ChatMsg
  isLoading : Bool
  error : Option String
  conversationId : Option String
deriving DecidableEq, Repr

/-- A successful chat response: `{conversation_id, response, evidence}`. -/
structure ChatResponse where
  conversation_id : Option String
  response : String
  evidence : Option String
deriving DecidableEq, Repr

/-- The fixed apology content of the synthetic assistant message appended on
a failed chat turn. -/
def chatApology : String :=
  "Sorry, there was an error processing your request. Please try again."

/-- The `error` field value set on a failed chat turn. -/
def chatSendFailure : String := "Failed to send message. Please try again."

/-- `sendMessage(messageText)` from ChatContext.jsx, run to completion
against a given network outcome.  Returns the post-state, the returned value
(`some` assistant message on success, `none` on the guard and failure paths),
and a flag recording whether the chat network call was issued. -/
def sendMessageRun (st : ChatState) (messageText : String) (isConnected : Bool)
    (resp : Except Unit ChatResponse) : ChatState × Option ChatMsg × Bool :=
  if jsTrim messageText == "" || !isConnected then
    (st, none, false)
  else
    let userMessage : ChatMsg := ⟨"user", messageText, none, false⟩
    let st1 : ChatState :=
      { st with messages := st.messages ++ [userMessage],
                isLoading := true, error := none }
    match resp with
    | Except.ok r =>
        let newCid : Option String :=
          if jsTruthy r.conversation_id && !jsTruthy st1.conversationId then
            r.conversation_id
          else st1.conversationId
        let assistantMessage : ChatMsg := ⟨"assistant", r.response, r.evidence, false⟩
        ({ st1 with conversationId := newCid,
                    messages := st1.messages ++ [assistantMessage],
                    isLoading := false }, some assistantMessage, true)
    | Except.error _ =>
        ({ st1 with error := some chatSendFailure,
                    messages := st1.messages ++ [⟨"assistant", chatApology, none, true⟩],
                    isLoading := false }, none, true)

/-- A fetched conversation payload: optional `messages` field and
`conversation_id`. -/
structure ConvData where
  messages : Option (List ChatMsg)
  conversation_id : Option String
deriving DecidableEq, Repr

/-- The `error` field value set on a failed conversation load. -/
def chatLoadFailure : String := "Failed to load conversation. Please try again."

/-- `loadConversation(id)` from ChatContext.jsx.  The network outcome is a
rejection message or a resolved payload (`none` models a falsy payload).
Returns the post-state and the message of the internally raised failure, if
any (`data && data.messages` failing raises "Invalid conversation data
received", which the catch block then converts into the fixed `error`
string). -/
def loadConversationRun (st : ChatState) (id : Option String)
    (isConnected : Bool) (resp : Except String (Option ConvData)) :
    ChatState × Option String :=
  if !jsTruthy id || !isConnected then
    (st, none)
  else
    let st1 : ChatState := { st with isLoading := true, error := none }
    match resp with
    | Except.ok (some d) =>
        match d.messages with
        | some ms =>
            ({ st1 with messages := ms, conversationId := d.conversation_id,
                        isLoading := false }, none)
        | none =>
            ({ st1 with error := some chatLoadFailure, isLoading := false },
             some "Invalid conversation data received")
    | Except.ok none =>
        ({ st1 with error := some chatLoadFailure, isLoading := false },
         some "Invalid conversation data received")
    | Except.error e =>
        ({ st1 with error := some chatLoadFailure, isLoading := false }, some e)

/-! ## Paginated Search Manager (src/context/SearchContext.jsx) -/

/-- A trial record; the manager never inspects its fields, so it is an opaque
identifier here. -/
structure Trial where
  id : Nat
deriving DecidableEq, Repr

/-- A search response: `{results, total}`, each field possibly absent. -/
structure SearchResponse where
  results : Option (List Trial)
  total : Option Nat
deriving DecidableEq, Repr

/-- The search-related state held by `SearchProvider` (filters omitted: the
embedded operations pass them through unread). -/
structure SearchState where
  query : String
  results : List Trial
  totalResults : Nat
  isLoading : Bool
  error : Option String
  page : Nat
  pageSize : Nat
  hasMore : Bool
deriving DecidableEq, Repr

/-- The `error` field value set on a failed search. -/
def searchFailure : String := "Failed to search for trials. Please try again."

/-- `search(searchQuery, page, pageSize)` from SearchContext.jsx, run to
completion against a given network outcome (`searchQuery = none` models the
`null` argument). -/
def searchRun (st : SearchState) (searchQuery : Option String)
    (page pageSize : Nat) (isConnected : Bool)
    (resp : Except Unit SearchResponse) : SearchState :=
  let st0 : SearchState :=
    match searchQuery with
    | some q => { st with query := q }
    | none => st
  let finalQuery := searchQuery.getD st.query
  if jsTrim finalQuery == "" || !isConnected then
    st0
  else
    let st1 : SearchState := { st0 with isLoading := true, error := none }
    match resp with
    | Except.ok data =>
        let newResults :=
          if page == 1 then data.results.getD []
          else st1.results ++ data.results.getD []
        { st1 with results := newResults,
                   totalResults := data.total.getD 0,
                   hasMore := decide (pageSize ≤ (data.results.getD []).length),
                   page := page,
                   isLoading := false }
    | Except.error _ =>
        { st1 with error := some searchFailure, results := [],
                   totalResults := 0, hasMore := false, isLoading := false }

/-- `loadMore()` from SearchContext.jsx: a no-op while loading or when
`hasMore` is false, otherwise `search(null, page + 1, pageSize)`. -/
def loadMoreRun (st : SearchState) (isConnected : Bool)
    (resp : Except Unit SearchResponse) : SearchState :=
  if st.isLoading || !st.hasMore then st
  else searchRun st none (st.page + 1) st.pageSize isConnected resp

/-! ## Theorems -/

/-- Claim C1: in every monitor state reachable by interleaved
`checkConnection(false)` calls and settlements, at most one health check is
in flight (`pending ≤ 1`), the in-progress flag holds exactly while one is
in flight, `isChecking` is true for the entire duration of the in-flight
check and false otherwise, and a `checkConnection(false)` call issued while
a check is unresolved returns immediately without changing any state. -/
theorem checkConnection_unforced_reentrancy (s : ApiConcState) (h : ApiReach s) :
    s.pending ≤ 1 ∧ s.inProgress = decide (1 ≤ s.pending) ∧
    s.isChecking = s.inProgress ∧
    (s.inProgress = true → apiCall s = s) := by
  induction h with
  | init => simp [apiConcInit, apiCall]
  | @call s hs ih =>
      obtain ⟨hp, hip, hic, -⟩ := ih
      by_cases hin : s.inProgress = true
      · have hcs : apiCall s = s := by simp [apiCall, hin]
        rw [hcs]
        exact ⟨hp, hip, hic, fun _ => hcs⟩
      · have hfalse : s.inProgress = false := by simpa using hin
        have hpend : s.pending = 0 := by
          rw [hfalse] at hip
          by_contra hne
          have hge : 1 ≤ s.pending := Nat.one_le_iff_ne_zero.mpr hne
          simp [hge] at hip
        simp [apiCall, hfalse, hpend]
  | @resolve s health now hs hpend ih =>
      obtain ⟨hp, hip, hic, -⟩ := ih
      have hone : s.pending = 1 := le_antisymm hp hpend
      cases health <;> simp [apiResolve, hone, apiCall]

/-- Closed instance of `checkConnection_unforced_reentrancy`: after one
unforced call from the initial state, the state is reachable and satisfies
the invariant; in particular a second unforced call is a no-op there. -/
theorem checkConnection_unforced_reentrancy_witness :
    (apiCall apiConcInit).pending ≤ 1 ∧
    (apiCall apiConcInit).inProgress = decide (1 ≤ (apiCall apiConcInit).pending) ∧
    (apiCall apiConcInit).isChecking = (apiCall apiConcInit).inProgress ∧
    ((apiCall apiConcInit).inProgress = true →
      apiCall (apiCall apiConcInit) = apiCall apiConcInit) :=
  checkConnection_unforced_reentrancy (apiCall apiConcInit)
    (ApiReach.call ApiReach.init)

/-- Claim C2: `checkApiHealth` serves a valid cached entry without a network
call and leaves the cache unchanged; on an invalid or absent entry it
performs a real network request and refreshes the cache with TTL 30000 on
success and TTL 15000 on failure (caching status "error"); consequently a
successful result is served from cache while less than 30000ms old and a
failed result while less than 15000ms old, after which the next call
performs a real network request again. -/
theorem checkApiHealth_cache_ttl (c : HealthCache) (now later : Nat)
    (net net2 : Except String String) :
    (cacheValid c now = true →
       checkApiHealth c now net = (Except.ok (c.status.getD ""), c, false)) ∧
    (cacheValid c now = false →
       (checkApiHealth c now net).2.2 = true ∧
       (∀ s, net = Except.ok s →
          checkApiHealth c now net =
            (Except.ok s, ⟨some s, some now, 30000⟩, true)) ∧
       (∀ e, net = Except.error e →
          checkApiHealth c now net =
            (Except.error e, ⟨some "error", some now, 15000⟩, true))) ∧
    (∀ s, cacheValid c now = false → s ≠ "" → 0 < now →
       ((later : Int) - now < 30000 →
          checkApiHealth (checkApiHealth c now (Except.ok s)).2.1 later net2 =
            (Except.ok s, (checkApiHealth c now (Except.ok s)).2.1, false)) ∧
       (30000 ≤ (later : Int) - now →
          (checkApiHealth (checkApiHealth c now (Except.ok s)).2.1 later
            net2).2.2 = true)) ∧
    (∀ e, cacheValid c now = false → 0 < now →
       ((later : Int) - now < 15000 →
          checkApiHealth (checkApiHealth c now (Except.error e)).2.1 later
            net2 =
            (Except.ok "error", (checkApiHealth c now (Except.error e)).2.1,
             false)) ∧
       (15000 ≤ (later : Int) - now →
          (checkApiHealth (checkApiHealth c now (Except.error e)).2.1 later
            net2).2.2 = true)) := by
  refine ⟨?_, ?_, ?_, ?_⟩
  · intro h
    simp [checkApiHealth, h]
  · intro h
    refine ⟨?_, ?_, ?_⟩
    · cases net <;> simp [checkApiHealth, h]
    · rintro s rfl
      simp [checkApiHealth, h]
    · rintro e rfl
      simp [checkApiHealth, h]
  · intro s h hs hnow
    have hc1 : (checkApiHealth c now (Except.ok s)).2.1 =
        ⟨some s, some now, 30000⟩ := by
      simp [checkApiHealth, h]
    rw [hc1]
    constructor
    · intro hfresh
      have hv : cacheValid ⟨some s, some now, 30000⟩ later = true := by
        simp [cacheValid, jsTruthy, jsTruthyNat, hs, Nat.pos_iff_ne_zero.mp hnow, hfresh]
      simp [checkApiHealth, hv]
    · intro hstale
      have hv : cacheValid ⟨some s, some now, 30000⟩ later = false := by
        simp [cacheValid, jsTruthy, jsTruthyNat]
        intro _ _
        omega
      cases net2 <;> simp [checkApiHealth, hv]
  · intro e h hnow
    have hc1 : (checkApiHealth c now (Except.error e)).2.1 =
        ⟨some "error", some now, 15000⟩ := by
      simp [checkApiHealth, h]
    rw [hc1]
    constructor
    · intro hfresh
      have hv : cacheValid ⟨some "error", some now, 15000⟩ later = true := by
        simp [cacheValid, jsTruthy, jsTruthyNat, Nat.pos_iff_ne_zero.mp hnow, hfresh]
      simp [checkApiHealth, hv]
    · intro hstale
      have hv : cacheValid ⟨some "error", some now, 15000⟩ later = false := by
        simp [cacheValid, jsTruthy, jsTruthyNat]
        intro _
        omega
      cases net2 <;> simp [checkApiHealth, hv]

/-- Closed instance of `checkApiHealth_cache_ttl`: a fresh "ok" entry is
served from cache 1ms later with no network call; a success refreshed at
time 5 is still served at 30004 but a failure refreshed at time 5 triggers
a real network request at 15005. -/
theorem checkApiHealth_cache_ttl_witness :
    (checkApiHealth ⟨some "ok", some 5, 30000⟩ 6 (Except.error "boom") =
       (Except.ok "ok", ⟨some "ok", some 5, 30000⟩, false)) ∧
    (checkApiHealth (checkApiHealth ⟨none, none, 30000⟩ 5
        (Except.ok "ok")).2.1 30004 (Except.error "x") =
       (Except.ok "ok",
        (checkApiHealth ⟨none, none, 30000⟩ 5 (Except.ok "ok")).2.1, false)) ∧
    ((checkApiHealth (checkApiHealth ⟨none, none, 30000⟩ 5
        (Except.error "boom")).2.1 15005 (Except.ok "ok")).2.2 = true) :=
  ⟨(checkApiHealth_cache_ttl ⟨some "ok", some 5, 30000⟩ 6 0
      (Except.error "boom") (Except.error "boom")).1 (by decide),
   ((checkApiHealth_cache_ttl ⟨none, none, 30000⟩ 5 30004
      (Except.ok "ok") (Except.error "x")).2.2.1 "ok" (by decide) (by decide)
      (by decide)).1 (by decide),
   ((checkApiHealth_cache_ttl ⟨none, none, 30000⟩ 5 15005
      (Except.error "boom") (Except.ok "ok")).2.2.2 "boom" (by decide)
      (by decide)).2 (by decide)⟩

/-- Claim C3: for a `search` invocation whose effective trimmed query is
non-empty and with connectivity true — on success, page 1 replaces the
results with the response's result list (empty if absent) while any other
page appends them; `totalResults` is set from the response, `hasMore` to
whether the returned item count reaches `pageSize`, and `page` to the page
just fetched.  On failure, `error` is set and results, `totalResults` and
`hasMore` are cleared.  In both cases `isLoading` is false on exit. -/
theorem search_success_failure_spec (st : SearchState)
    (searchQuery : Option String) (page pageSize : Nat)
    (data : SearchResponse)
    (hq : jsTrim (searchQuery.getD st.query) ≠ "") :
    ((searchRun st searchQuery page pageSize true (Except.ok data)).results =
       (if page = 1 then data.results.getD []
        else st.results ++ data.results.getD []) ∧
     (searchRun st searchQuery page pageSize true
        (Except.ok data)).totalResults = data.total.getD 0 ∧
     (searchRun st searchQuery page pageSize true (Except.ok data)).hasMore =
       decide (pageSize ≤ (data.results.getD []).length) ∧
     (searchRun st searchQuery page pageSize true (Except.ok data)).page =
       page ∧
     (searchRun st searchQuery page pageSize true (Except.ok data)).isLoading =
       false) ∧
    ((searchRun st searchQuery page pageSize true (Except.error ())).error =
       some searchFailure ∧
     (searchRun st searchQuery page pageSize true (Except.error ())).results =
       [] ∧
     (searchRun st searchQuery page pageSize true
        (Except.error ())).totalResults = 0 ∧
     (searchRun st searchQuery page pageSize true (Except.error ())).hasMore =
       false ∧
     (searchRun st searchQuery page pageSize true (Except.error ())).isLoading =
       false) := by
  cases searchQuery with
  | none =>
      simp only [Option.getD] at hq
      by_cases hp : page = 1 <;> simp [searchRun, hq, hp]
  | some q =>
      simp only [Option.getD] at hq
      by_cases hp : page = 1 <;> simp [searchRun, hq, hp]

/-- Closed instance of `search_success_failure_spec`: a page-2 search over a
held query appends the two returned trials, records total 42, computes
`hasMore` against page size 2, and a failing search clears everything. -/
theorem search_success_failure_spec_witness :
    ((searchRun ⟨"melanoma", [⟨1⟩, ⟨2⟩], 42, false, none, 1, 2, true⟩ none 2 2
        true (Except.ok ⟨some [⟨3⟩, ⟨4⟩], some 42⟩)).results =
       (if 2 = 1 then (some [⟨3⟩, ⟨4⟩] : Option (List Trial)).getD []
        else [⟨1⟩, ⟨2⟩] ++ (some [⟨3⟩, ⟨4⟩] : Option (List Trial)).getD []) ∧
     (searchRun ⟨"melanoma", [⟨1⟩, ⟨2⟩], 42, false, none, 1, 2, true⟩ none 2 2
        true (Except.ok ⟨some [⟨3⟩, ⟨4⟩], some 42⟩)).totalResults =
       (some 42 : Option Nat).getD 0 ∧
     (searchRun ⟨"melanoma", [⟨1⟩, ⟨2⟩], 42, false, none, 1, 2, true⟩ none 2 2
        true (Except.ok ⟨some [⟨3⟩, ⟨4⟩], some 42⟩)).hasMore =
       decide (2 ≤ ((some [⟨3⟩, ⟨4⟩] : Option (List Trial)).getD []).length) ∧
     (searchRun ⟨"melanoma", [⟨1⟩, ⟨2⟩], 42, false, none, 1, 2, true⟩ none 2 2
        true (Except.ok ⟨some [⟨3⟩, ⟨4⟩], some 42⟩)).page = 2 ∧
     (searchRun ⟨"melanoma", [⟨1⟩, ⟨2⟩], 42, false, none, 1, 2, true⟩ none 2 2
        true (Except.ok ⟨some [⟨3⟩, ⟨4⟩], some 42⟩)).isLoading = false) ∧
    ((searchRun ⟨"melanoma", [⟨1⟩, ⟨2⟩], 42, false, none, 1, 2, true⟩ none 2 2
        true (Except.error ())).error = some searchFailure ∧
     (searchRun ⟨"melanoma", [⟨1⟩, ⟨2⟩], 42, false, none, 1, 2, true⟩ none 2 2
        true (Except.error ())).results = [] ∧
     (searchRun ⟨"melanoma", [⟨1⟩, ⟨2⟩], 42, false, none, 1, 2, true⟩ none 2 2
        true (Except.error ())).totalResults = 0 ∧
     (searchRun ⟨"melanoma", [⟨1⟩, ⟨2⟩], 42, false, none, 1, 2, true⟩ none 2 2
        true (Except.error ())).hasMore = false ∧
     (searchRun ⟨"melanoma", [⟨1⟩, ⟨2⟩], 42, false, none, 1, 2, true⟩ none 2 2
        true (Except.error ())).isLoading = false) :=
  search_success_failure_spec
    ⟨"melanoma", [⟨1⟩, ⟨2⟩], 42, false, none, 1, 2, true⟩ none 2 2
    ⟨some [⟨3⟩, ⟨4⟩], some 42⟩ (by decide)

/-- Claim C4: `loadMore` is a no-op while loading or when `hasMore` is
false; otherwise it is exactly `search(null, page + 1, pageSize)`, and on a
successful response (with a held non-empty query, page ≥ 1 and connectivity
true) it appends the response's results to the accumulated list, so the
result length becomes the old length plus the returned count. -/
theorem loadMore_spec (st : SearchState) (isConnected : Bool)
    (resp : Except Unit SearchResponse) :
    (st.isLoading = true ∨ st.hasMore = false →
       loadMoreRun st isConnected resp = st) ∧
    (st.isLoading = false → st.hasMore = true →
       loadMoreRun st isConnected resp =
         searchRun st none (st.page + 1) st.pageSize isConnected resp) ∧
    (∀ data : SearchResponse, st.isLoading = false → st.hasMore = true →
       jsTrim st.query ≠ "" → 1 ≤ st.page →
       (loadMoreRun st true (Except.ok data)).results =
         st.results ++ data.results.getD [] ∧
       (loadMoreRun st true (Except.ok data)).results.length =
         st.results.length + (data.results.getD []).length) := by
  refine ⟨?_, ?_, ?_⟩
  · rintro (h | h) <;> simp [loadMoreRun, h]
  · intro h1 h2
    simp [loadMoreRun, h1, h2]
  · intro data h1 h2 hq hp
    have hp0 : ¬st.page = 0 := by omega
    simp [loadMoreRun, searchRun, h1, h2, hq, hp0]

/-- Closed instance of `loadMore_spec`: after a page-1 search that filled a
page of two items, `loadMore` appends the returned single trial, giving
length 2 + 1. -/
theorem loadMore_spec_witness :
    (loadMoreRun ⟨"melanoma", [⟨1⟩, ⟨2⟩], 42, false, none, 1, 2, true⟩ true
       (Except.ok ⟨some [⟨3⟩], some 42⟩)).results =
      [⟨1⟩, ⟨2⟩] ++ (some [⟨3⟩] : Option (List Trial)).getD [] ∧
    (loadMoreRun ⟨"melanoma", [⟨1⟩, ⟨2⟩], 42, false, none, 1, 2, true⟩ true
       (Except.ok ⟨some [⟨3⟩], some 42⟩)).results.length =
      ([⟨1⟩, ⟨2⟩] : List Trial).length +
        ((some [⟨3⟩] : Option (List Trial)).getD []).length :=
  (loadMore_spec ⟨"melanoma", [⟨1⟩, ⟨2⟩], 42, false, none, 1, 2, true⟩ true
      (Except.ok ⟨some [⟨3⟩], some 42⟩)).2.2 ⟨some [⟨3⟩], some 42⟩
    (by decide) (by decide) (by decide) (by decide)

/-- Claim C5: on a successful chat turn the conversation id is adopted from
the response exactly when the response carries one and none is currently
held; a held id is never changed by a later successful response, and in
particular after a first adoption a second successful turn with any response
leaves the adopted id in place (first-response-wins). -/
theorem conversationId_first_response_wins (st : ChatState) (text : String)
    (r : ChatResponse) (ht : jsTrim text ≠ "") :
    (jsTruthy st.conversationId = true →
       (sendMessageRun st text true (Except.ok r)).1.conversationId =
         st.conversationId) ∧
    (jsTruthy st.conversationId = false → jsTruthy r.conversation_id = true →
       (sendMessageRun st text true (Except.ok r)).1.conversationId =
         r.conversation_id) ∧
    (∀ (text2 : String) (r2 : ChatResponse), jsTrim text2 ≠ "" →
       jsTruthy st.conversationId = false →
       jsTruthy r.conversation_id = true →
       (sendMessageRun (sendMessageRun st text true (Except.ok r)).1 text2
          true (Except.ok r2)).1.conversationId = r.conversation_id) := by
  refine ⟨?_, ?_, ?_⟩
  · intro hheld
    simp [sendMessageRun, ht, hheld]
  · intro hnone hcarries
    simp [sendMessageRun, ht, hnone, hcarries]
  · intro text2 r2 ht2 hnone hcarries
    have h1 : (sendMessageRun st text true (Except.ok r)).1.conversationId =
        r.conversation_id := by
      simp [sendMessageRun, ht, hnone, hcarries]
    generalize hmid : (sendMessageRun st text true (Except.ok r)).1 = stMid
    rw [hmid] at h1
    have hfact : jsTruthy stMid.conversationId = true := by rw [h1]; exact hcarries
    simp [sendMessageRun, ht2, h1, hfact, hcarries]

/-- Closed instance of `conversationId_first_response_wins`: a fresh session
adopts "c1" from the first successful response, and a second successful
response carrying "c2" does not change it. -/
theorem conversationId_first_response_wins_witness :
    (sendMessageRun ⟨[], false, none, none⟩ "hi" true
       (Except.ok ⟨some "c1", "welcome", none⟩)).1.conversationId =
      some "c1" ∧
    (sendMessageRun (sendMessageRun ⟨[], false, none, none⟩ "hi" true
        (Except.ok ⟨some "c1", "welcome", none⟩)).1 "again" true
       (Except.ok ⟨some "c2", "more", none⟩)).1.conversationId = some "c1" :=
  ⟨(conversationId_first_response_wins ⟨[], false, none, none⟩ "hi"
      ⟨some "c1", "welcome", none⟩ (by decide)).2.1 (by decide) (by decide),
   (conversationId_first_response_wins ⟨[], false, none, none⟩ "hi"
      ⟨some "c1", "welcome", none⟩ (by decide)).2.2 "again"
     ⟨some "c2", "more", none⟩ (by decide) (by decide) (by decide)⟩

/-- Claim C6: a `sendMessage` call that issues a network request and fails
appends exactly one synthetic assistant message with `isError = true` and
the fixed apology content after the optimistic user message (which remains
in history), sets the session's `error` field, returns null, and leaves
`isLoading` false on exit. -/
theorem sendMessage_failure_spec (st : ChatState) (text : String)
    (ht : jsTrim text ≠ "") :
    (sendMessageRun st text true (Except.error ())).1.messages =
      st.messages ++ [⟨"user", text, none, false⟩,
        ⟨"assistant", chatApology, none, true⟩] ∧
    (sendMessageRun st text true (Except.error ())).1.error =
      some chatSendFailure ∧
    (sendMessageRun st text true (Except.error ())).2.1 = none ∧
    (sendMessageRun st text true (Except.error ())).1.isLoading = false := by
  simp [sendMessageRun, ht]

/-- Closed instance of `sendMessage_failure_spec`: a failed turn in a
session that already holds one message. -/
theorem sendMessage_failure_spec_witness :
    (sendMessageRun ⟨[⟨"user", "old", none, false⟩], false, none, none⟩
       "hello" true (Except.error ())).1.messages =
      [⟨"user", "old", none, false⟩] ++ [⟨"user", "hello", none, false⟩,
        ⟨"assistant", chatApology, none, true⟩] ∧
    (sendMessageRun ⟨[⟨"user", "old", none, false⟩], false, none, none⟩
       "hello" true (Except.error ())).1.error = some chatSendFailure ∧
    (sendMessageRun ⟨[⟨"user", "old", none, false⟩], false, none, none⟩
       "hello" true (Except.error ())).2.1 = none ∧
    (sendMessageRun ⟨[⟨"user", "old", none, false⟩], false, none, none⟩
       "hello" true (Except.error ())).1.isLoading = false :=
  sendMessage_failure_spec ⟨[⟨"user", "old", none, false⟩], false, none, none⟩
    "hello" (by decide)

/-- Claim C7: `sendMessage` on input whose trimmed form is empty, or while
connectivity is false, is a no-op: the state is returned unchanged (no
message appended, no error surfaced), the returned value is null, and the
network-call flag is false. -/
theorem sendMessage_noop_spec (st : ChatState) (text : String)
    (isConnected : Bool) (resp : Except Unit ChatResponse)
    (h : jsTrim text = "" ∨ isConnected = false) :
    sendMessageRun st text isConnected resp = (st, none, false) := by
  rcases h with h | h <;> simp [sendMessageRun, h]

/-- Closed instances of `sendMessage_noop_spec`: blank input while
connected, and non-blank input while disconnected. -/
theorem sendMessage_noop_spec_witness :
    sendMessageRun ⟨[], false, none, none⟩ "  " true
        (Except.ok ⟨some "c1", "r", none⟩) = (⟨[], false, none, none⟩, none, false) ∧
    sendMessageRun ⟨[], false, none, none⟩ "hello" false
        (Except.ok ⟨some "c1", "r", none⟩) = (⟨[], false, none, none⟩, none, false) :=
  ⟨sendMessage_noop_spec ⟨[], false, none, none⟩ "  " true
      (Except.ok ⟨some "c1", "r", none⟩) (Or.inl (by decide)),
   sendMessage_noop_spec ⟨[], false, none, none⟩ "hello" false
      (Except.ok ⟨some "c1", "r", none⟩) (Or.inr rfl)⟩

/-- Claim C8: when the underlying health request of a non-skipped
`checkConnection` call fails, the failure is absorbed (the call still
returns a value, namely false), `isConnected` becomes false and
`isChecking` is cleared; the returned value and resulting `isConnected`
coincide exactly with those of a call whose health request resolves with
status "error". -/
theorem checkConnection_failure_absorbed (st : ApiState) (force : Bool)
    (e : String) (now : Nat) (h : st.inProgress = false ∨ force = true) :
    (checkConnection st force (Except.error e) now).2 = some false ∧
    (checkConnection st force (Except.error e) now).1.isConnected = false ∧
    (checkConnection st force (Except.error e) now).1.isChecking = false ∧
    (checkConnection st force (Except.error e) now).2 =
      (checkConnection st force (Except.ok (some "error")) now).2 ∧
    (checkConnection st force (Except.error e) now).1.isConnected =
      (checkConnection st force (Except.ok (some "error")) now).1.isConnected := by
  have hcond : (st.inProgress && !force) = false := by
    rcases h with h | h <;> simp [h]
  simp [checkConnection, hcond, isHealthyOf]

/-- Closed instance of `checkConnection_failure_absorbed`: an idle monitor
whose health request rejects with "timeout". -/
theorem checkConnection_failure_absorbed_witness :
    (checkConnection ⟨true, none, false, none, false⟩ false
       (Except.error "timeout") 7).2 = some false ∧
    (checkConnection ⟨true, none, false, none, false⟩ false
       (Except.error "timeout") 7).1.isConnected = false ∧
    (checkConnection ⟨true, none, false, none, false⟩ false
       (Except.error "timeout") 7).1.isChecking = false ∧
    (checkConnection ⟨true, none, false, none, false⟩ false
       (Except.error "timeout") 7).2 =
      (checkConnection ⟨true, none, false, none, false⟩ false
         (Except.ok (some "error")) 7).2 ∧
    (checkConnection ⟨true, none, false, none, false⟩ false
       (Except.error "timeout") 7).1.isConnected =
      (checkConnection ⟨true, none, false, none, false⟩ false
         (Except.ok (some "error")) 7).1.isConnected :=
  checkConnection_failure_absorbed ⟨true, none, false, none, false⟩ false
    "timeout" 7 (Or.inl rfl)

/-- Claim C9: a `loadConversation` call with a truthy id and connectivity
true whose fetch resolves with a payload lacking a `messages` field raises
"Invalid conversation data received" internally and is treated as a
failure: the `error` field is set and the prior messages and conversation
id are left untouched, with `isLoading` false on exit. -/
theorem loadConversation_invalid_data_spec (st : ChatState)
    (id : Option String) (d : ConvData) (hid : jsTruthy id = true)
    (hm : d.messages = none) :
    (loadConversationRun st id true (Except.ok (some d))).1.error =
      some chatLoadFailure ∧
    (loadConversationRun st id true (Except.ok (some d))).2 =
      some "Invalid conversation data received" ∧
    (loadConversationRun st id true (Except.ok (some d))).1.messages =
      st.messages ∧
    (loadConversationRun st id true (Except.ok (some d))).1.conversationId =
      st.conversationId ∧
    (loadConversationRun st id true (Except.ok (some d))).1.isLoading =
      false := by
  simp [loadConversationRun, hid, hm]

/-- Closed instance of `loadConversation_invalid_data_spec`: loading id
"abc" into a session holding one message, with a payload that has a
conversation id but no messages field. -/
theorem loadConversation_invalid_data_spec_witness :
    (loadConversationRun ⟨[⟨"user", "old", none, false⟩], false, none,
        some "held"⟩ (some "abc") true
       (Except.ok (some ⟨none, some "other"⟩))).1.error =
      some chatLoadFailure ∧
    (loadConversationRun ⟨[⟨"user", "old", none, false⟩], false, none,
        some "held"⟩ (some "abc") true
       (Except.ok (some ⟨none, some "other"⟩))).2 =
      some "Invalid conversation data received" ∧
    (loadConversationRun ⟨[⟨"user", "old", none, false⟩], false, none,
        some "held"⟩ (some "abc") true
       (Except.ok (some ⟨none, some "other"⟩))).1.messages =
      [⟨"user", "old", none, false⟩] ∧
    (loadConversationRun ⟨[⟨"user", "old", none, false⟩], false, none,
        some "held"⟩ (some "abc") true
       (Except.ok (some ⟨none, some "other"⟩))).1.conversationId =
      some "held" ∧
    (loadConversationRun ⟨[⟨"user", "old", none, false⟩], false, none,
        some "held"⟩ (some "abc") true
       (Except.ok (some ⟨none, some "other"⟩))).1.isLoading = false :=
  loadConversation_invalid_data_spec
    ⟨[⟨"user", "old", none, false⟩], false, none, some "held"⟩ (some "abc")
    ⟨none, some "other"⟩ (by decide) rfl

/-- Claim C10: a non-skipped `checkConnection` call whose health request
fails leaves `lastChecked` unchanged, while any call whose request resolves
(with any status) sets `lastChecked` to the current time — so `lastChecked`
records the time of the last resolved check, not the last attempt. -/
theorem checkConnection_lastChecked_frame (st : ApiState) (force : Bool)
    (e : String) (h : Option String) (now : Nat)
    (hp : st.inProgress = false ∨ force = true) :
    (checkConnection st force (Except.error e) now).1.lastChecked =
      st.lastChecked ∧
    (checkConnection st force (Except.ok h) now).1.lastChecked = some now := by
  have hcond : (st.inProgress && !force) = false := by
    rcases hp with hp | hp <;> simp [hp]
  simp [checkConnection, hcond]

/-- Closed instance of `checkConnection_lastChecked_frame`: from a monitor
whose last resolved check was at time 3, a failing request at time 9 keeps
`lastChecked = 3`, while a resolving non-ok request at time 9 moves it to
9. -/
theorem checkConnection_lastChecked_frame_witness :
    (checkConnection ⟨true, some 3, false, none, false⟩ false
       (Except.error "boom") 9).1.lastChecked = some 3 ∧
    (checkConnection ⟨true, some 3, false, none, false⟩ false
       (Except.ok (some "error")) 9).1.lastChecked = some 9 :=
  checkConnection_lastChecked_frame ⟨true, some 3, false, none, false⟩ false
    "boom" (some "error") 9 (Or.inl rfl)

end Gary
